import Mathlib

/-!
Shallow embedding of the Chrono granular-dynamics core
(`src/chrono_granular/physics/ChGranular.cpp` and
`src/chrono_granular/physics/ChGranularTriMesh.cpp`), together with
theorems settling the specification claims about domain partitioning,
simulation-unit derivation, device-buffer cleanup, and the triangle-mesh
soup operations.  Real-valued C++ `double`/`float` arithmetic is modelled
as exact arithmetic (ℚ where the code is purely rational, ℝ where `sqrt`
and π appear); machine pointers are modelled as `Option ℕ` addresses over
an explicit heap of live allocations.
-/

namespace ChronoGranular

/-! ## Domain partitioner (`partition_BD`, ChGranular.cpp lines 205-245) -/

/-- Result of partitioning one axis of the big domain: the number of
sub-domains along the axis and the SD size along the axis in SU. -/
structure AxisPartition where
  nSDs_axis : ℕ
  SD_axis_SU : ℕ
  deriving Repr, DecidableEq

/-- One axis of `partition_BD`: `tempDIM = 2·sphere_radius·density`,
`howMany = (unsigned)ceil(extent / tempDIM)`, bumped to even via
`if (howMany & 1) howMany++`, then `SD_SU = (unsigned)ceil((extent/howMany)/LENGTH_UNIT)`. -/
def partitionAxis (extent sphere_radius density LENGTH_UNIT : ℚ) : AxisPartition :=
  let tempDIM := 2 * sphere_radius * density
  let howMany0 := Nat.ceil (extent / tempDIM)
  let howMany := if howMany0 % 2 = 1 then howMany0 + 1 else howMany0
  let tempDIM2 := extent / (howMany : ℚ)
  { nSDs_axis := howMany, SD_axis_SU := Nat.ceil (tempDIM2 / LENGTH_UNIT) }

/-- Inputs read by `partition_BD`. -/
structure PartitionInputs where
  box_L : ℚ
  box_D : ℚ
  box_H : ℚ
  sphere_radius : ℚ
  AVERAGE_SPHERES_PER_SD_L_DIR : ℚ
  AVERAGE_SPHERES_PER_SD_D_DIR : ℚ
  AVERAGE_SPHERES_PER_SD_H_DIR : ℚ
  LENGTH_UNIT : ℚ
  deriving Repr, DecidableEq

/-- Fields written by `partition_BD`. -/
structure PartitionResult where
  nSDs_L_SU : ℕ
  nSDs_D_SU : ℕ
  nSDs_H_SU : ℕ
  SD_L_SU : ℕ
  SD_D_SU : ℕ
  SD_H_SU : ℕ
  nSDs : ℕ
  BD_frame_X : ℚ
  BD_frame_Y : ℚ
  BD_frame_Z : ℚ
  BD_frame_X_dot : ℚ
  BD_frame_Y_dot : ℚ
  BD_frame_Z_dot : ℚ
  deriving Repr, DecidableEq

/-- `partition_BD` (ChGranular.cpp lines 205-245): partitions each of the
three axes, multiplies the per-axis SD counts into `nSDs`, and places the
BD frame at `-0.5 · (count · size)` per axis with zero frame velocity. -/
def partition_BD (p : PartitionInputs) : PartitionResult :=
  let aL := partitionAxis p.box_L p.sphere_radius p.AVERAGE_SPHERES_PER_SD_L_DIR p.LENGTH_UNIT
  let aD := partitionAxis p.box_D p.sphere_radius p.AVERAGE_SPHERES_PER_SD_D_DIR p.LENGTH_UNIT
  let aH := partitionAxis p.box_H p.sphere_radius p.AVERAGE_SPHERES_PER_SD_H_DIR p.LENGTH_UNIT
  { nSDs_L_SU := aL.nSDs_axis
    nSDs_D_SU := aD.nSDs_axis
    nSDs_H_SU := aH.nSDs_axis
    SD_L_SU := aL.SD_axis_SU
    SD_D_SU := aD.SD_axis_SU
    SD_H_SU := aH.SD_axis_SU
    nSDs := aL.nSDs_axis * aD.nSDs_axis * aH.nSDs_axis
    BD_frame_X := -1/2 * ((aL.nSDs_axis : ℚ) * (aL.SD_axis_SU : ℚ))
    BD_frame_Y := -1/2 * ((aD.nSDs_axis : ℚ) * (aD.SD_axis_SU : ℚ))
    BD_frame_Z := -1/2 * ((aH.nSDs_axis : ℚ) * (aH.SD_axis_SU : ℚ))
    BD_frame_X_dot := 0
    BD_frame_Y_dot := 0
    BD_frame_Z_dot := 0 }

/-- Helper: the per-axis SD count of `partitionAxis` in the spec's phrasing. -/
lemma partitionAxis_nSDs (extent r d LU : ℚ) :
    (partitionAxis extent r d LU).nSDs_axis =
      (if Odd (Nat.ceil (extent / (2 * r * d)))
        then Nat.ceil (extent / (2 * r * d)) + 1
        else Nat.ceil (extent / (2 * r * d))) := by
  simp only [partitionAxis, Nat.odd_iff]

/-- Helper: the per-axis SD size of `partitionAxis` in the spec's phrasing. -/
lemma partitionAxis_SD_SU (extent r d LU : ℚ) :
    (partitionAxis extent r d LU).SD_axis_SU =
      Nat.ceil ((extent / ((partitionAxis extent r d LU).nSDs_axis : ℚ)) / LU) := by
  simp only [partitionAxis]

/-- Helper: after the even-forcing step the axis SD count is even. -/
lemma partitionAxis_even (extent r d LU : ℚ) :
    (partitionAxis extent r d LU).nSDs_axis % 2 = 0 := by
  simp only [partitionAxis]
  rcases Nat.mod_two_eq_zero_or_one (Nat.ceil (extent / (2 * r * d))) with h | h
  · simp [h]
  · simp [h, Nat.add_mod]

/-- Helper: with positive extent, radius, and density the axis SD count is at least 2. -/
lemma partitionAxis_two_le (extent r d LU : ℚ)
    (hx : 0 < extent) (hr : 0 < r) (hd : 0 < d) :
    2 ≤ (partitionAxis extent r d LU).nSDs_axis := by
  have hpos : 0 < extent / (2 * r * d) := by positivity
  have h1 : 1 ≤ Nat.ceil (extent / (2 * r * d)) := Nat.ceil_pos.mpr hpos
  rw [partitionAxis_nSDs]
  rcases Nat.even_or_odd (Nat.ceil (extent / (2 * r * d))) with he | ho
  · rw [if_neg (Nat.not_odd_iff_even.mpr he)]
    rcases he with ⟨k, hk⟩
    omega
  · rw [if_pos ho]
    omega

/-- Helper: the SD grid covers the axis extent: `count · size · LENGTH_UNIT ≥ extent`. -/
lemma partitionAxis_covers (extent r d LU : ℚ)
    (hx : 0 < extent) (hr : 0 < r) (hd : 0 < d) (hLU : 0 < LU) :
    extent ≤ ((partitionAxis extent r d LU).nSDs_axis : ℚ) *
      ((partitionAxis extent r d LU).SD_axis_SU : ℚ) * LU := by
  set n := (partitionAxis extent r d LU).nSDs_axis with hn
  have hn2 : 2 ≤ n := partitionAxis_two_le extent r d LU hx hr hd
  have hnpos : (0 : ℚ) < (n : ℚ) := by exact_mod_cast Nat.lt_of_lt_of_le (by omega) hn2
  have hsz : (extent / (n : ℚ)) / LU ≤ ((partitionAxis extent r d LU).SD_axis_SU : ℚ) := by
    rw [partitionAxis_SD_SU, ← hn]
    exact Nat.le_ceil _
  have h1 : extent / (n : ℚ) ≤ ((partitionAxis extent r d LU).SD_axis_SU : ℚ) * LU := by
    have := mul_le_mul_of_nonneg_right hsz (le_of_lt hLU)
    rwa [div_mul_cancel₀ _ (ne_of_gt hLU)] at this
  have h2 : extent ≤ (n : ℚ) * (((partitionAxis extent r d LU).SD_axis_SU : ℚ) * LU) := by
    have := mul_le_mul_of_nonneg_left h1 (le_of_lt hnpos)
    rwa [mul_div_cancel₀ _ (ne_of_gt hnpos)] at this
  linarith [h2]

/-- C1: for every axis with positive extent, positive sphere radius, positive
per-axis target density and positive `LENGTH_UNIT`, `partition_BD` computes the
per-axis SD count as `howMany = ceil(axisExtent / (2·radius·targetDensity))`,
increments `howMany` by one if it is odd, sets the per-axis SD size in SU to
`ceil((axisExtent / howMany) / LENGTH_UNIT)`, and sets `nSDs` to the product of
the three per-axis counts. -/
theorem partition_BD_per_axis_formulas (p : PartitionInputs)
    (hL : 0 < p.box_L) (hD : 0 < p.box_D) (hH : 0 < p.box_H)
    (hr : 0 < p.sphere_radius)
    (hdL : 0 < p.AVERAGE_SPHERES_PER_SD_L_DIR)
    (hdD : 0 < p.AVERAGE_SPHERES_PER_SD_D_DIR)
    (hdH : 0 < p.AVERAGE_SPHERES_PER_SD_H_DIR)
    (hLU : 0 < p.LENGTH_UNIT) :
    (partition_BD p).nSDs_L_SU =
      (if Odd (Nat.ceil (p.box_L / (2 * p.sphere_radius * p.AVERAGE_SPHERES_PER_SD_L_DIR)))
        then Nat.ceil (p.box_L / (2 * p.sphere_radius * p.AVERAGE_SPHERES_PER_SD_L_DIR)) + 1
        else Nat.ceil (p.box_L / (2 * p.sphere_radius * p.AVERAGE_SPHERES_PER_SD_L_DIR))) ∧
    (partition_BD p).nSDs_D_SU =
      (if Odd (Nat.ceil (p.box_D / (2 * p.sphere_radius * p.AVERAGE_SPHERES_PER_SD_D_DIR)))
        then Nat.ceil (p.box_D / (2 * p.sphere_radius * p.AVERAGE_SPHERES_PER_SD_D_DIR)) + 1
        else Nat.ceil (p.box_D / (2 * p.sphere_radius * p.AVERAGE_SPHERES_PER_SD_D_DIR))) ∧
    (partition_BD p).nSDs_H_SU =
      (if Odd (Nat.ceil (p.box_H / (2 * p.sphere_radius * p.AVERAGE_SPHERES_PER_SD_H_DIR)))
        then Nat.ceil (p.box_H / (2 * p.sphere_radius * p.AVERAGE_SPHERES_PER_SD_H_DIR)) + 1
        else Nat.ceil (p.box_H / (2 * p.sphere_radius * p.AVERAGE_SPHERES_PER_SD_H_DIR))) ∧
    (partition_BD p).SD_L_SU =
      Nat.ceil ((p.box_L / ((partition_BD p).nSDs_L_SU : ℚ)) / p.LENGTH_UNIT) ∧
    (partition_BD p).SD_D_SU =
      Nat.ceil ((p.box_D / ((partition_BD p).nSDs_D_SU : ℚ)) / p.LENGTH_UNIT) ∧
    (partition_BD p).SD_H_SU =
      Nat.ceil ((p.box_H / ((partition_BD p).nSDs_H_SU : ℚ)) / p.LENGTH_UNIT) ∧
    (partition_BD p).nSDs =
      (partition_BD p).nSDs_L_SU * (partition_BD p).nSDs_D_SU * (partition_BD p).nSDs_H_SU := by
  refine ⟨?_, ?_, ?_, ?_, ?_, ?_, rfl⟩
  · exact partitionAxis_nSDs p.box_L p.sphere_radius p.AVERAGE_SPHERES_PER_SD_L_DIR p.LENGTH_UNIT
  · exact partitionAxis_nSDs p.box_D p.sphere_radius p.AVERAGE_SPHERES_PER_SD_D_DIR p.LENGTH_UNIT
  · exact partitionAxis_nSDs p.box_H p.sphere_radius p.AVERAGE_SPHERES_PER_SD_H_DIR p.LENGTH_UNIT
  · exact partitionAxis_SD_SU p.box_L p.sphere_radius p.AVERAGE_SPHERES_PER_SD_L_DIR p.LENGTH_UNIT
  · exact partitionAxis_SD_SU p.box_D p.sphere_radius p.AVERAGE_SPHERES_PER_SD_D_DIR p.LENGTH_UNIT
  · exact partitionAxis_SD_SU p.box_H p.sphere_radius p.AVERAGE_SPHERES_PER_SD_H_DIR p.LENGTH_UNIT

/-- Witness for C1: the per-axis formulas instantiated at a concrete input. -/
theorem partition_BD_per_axis_formulas_witness :
    ∃ p : PartitionInputs, (partition_BD p).nSDs =
      (partition_BD p).nSDs_L_SU * (partition_BD p).nSDs_D_SU * (partition_BD p).nSDs_H_SU := by
  refine ⟨⟨10, 10, 10, 1, 1, 1, 1, 1⟩, ?_⟩
  exact (partition_BD_per_axis_formulas ⟨10, 10, 10, 1, 1, 1, 1, 1⟩
    (by norm_num) (by norm_num) (by norm_num) (by norm_num)
    (by norm_num) (by norm_num) (by norm_num) (by norm_num)).2.2.2.2.2.2

/-- C2: with positive box extents, radius, densities and `LENGTH_UNIT`, each
per-axis SD count is even and at least 2, and the covered extent
`count · size · LENGTH_UNIT` is at least the requested box extent per axis. -/
theorem partition_BD_coverage (p : PartitionInputs)
    (hL : 0 < p.box_L) (hD : 0 < p.box_D) (hH : 0 < p.box_H)
    (hr : 0 < p.sphere_radius)
    (hdL : 0 < p.AVERAGE_SPHERES_PER_SD_L_DIR)
    (hdD : 0 < p.AVERAGE_SPHERES_PER_SD_D_DIR)
    (hdH : 0 < p.AVERAGE_SPHERES_PER_SD_H_DIR)
    (hLU : 0 < p.LENGTH_UNIT) :
    ((partition_BD p).nSDs_L_SU % 2 = 0 ∧ 2 ≤ (partition_BD p).nSDs_L_SU ∧
      p.box_L ≤ ((partition_BD p).nSDs_L_SU : ℚ) * ((partition_BD p).SD_L_SU : ℚ) * p.LENGTH_UNIT) ∧
    ((partition_BD p).nSDs_D_SU % 2 = 0 ∧ 2 ≤ (partition_BD p).nSDs_D_SU ∧
      p.box_D ≤ ((partition_BD p).nSDs_D_SU : ℚ) * ((partition_BD p).SD_D_SU : ℚ) * p.LENGTH_UNIT) ∧
    ((partition_BD p).nSDs_H_SU % 2 = 0 ∧ 2 ≤ (partition_BD p).nSDs_H_SU ∧
      p.box_H ≤ ((partition_BD p).nSDs_H_SU : ℚ) * ((partition_BD p).SD_H_SU : ℚ) * p.LENGTH_UNIT) := by
  refine ⟨⟨?_, ?_, ?_⟩, ⟨?_, ?_, ?_⟩, ⟨?_, ?_, ?_⟩⟩
  · exact partitionAxis_even p.box_L p.sphere_radius p.AVERAGE_SPHERES_PER_SD_L_DIR p.LENGTH_UNIT
  · exact partitionAxis_two_le p.box_L p.sphere_radius p.AVERAGE_SPHERES_PER_SD_L_DIR p.LENGTH_UNIT
      hL hr hdL
  · exact partitionAxis_covers p.box_L p.sphere_radius p.AVERAGE_SPHERES_PER_SD_L_DIR p.LENGTH_UNIT
      hL hr hdL hLU
  · exact partitionAxis_even p.box_D p.sphere_radius p.AVERAGE_SPHERES_PER_SD_D_DIR p.LENGTH_UNIT
  · exact partitionAxis_two_le p.box_D p.sphere_radius p.AVERAGE_SPHERES_PER_SD_D_DIR p.LENGTH_UNIT
      hD hr hdD
  · exact partitionAxis_covers p.box_D p.sphere_radius p.AVERAGE_SPHERES_PER_SD_D_DIR p.LENGTH_UNIT
      hD hr hdD hLU
  · exact partitionAxis_even p.box_H p.sphere_radius p.AVERAGE_SPHERES_PER_SD_H_DIR p.LENGTH_UNIT
  · exact partitionAxis_two_le p.box_H p.sphere_radius p.AVERAGE_SPHERES_PER_SD_H_DIR p.LENGTH_UNIT
      hH hr hdH
  · exact partitionAxis_covers p.box_H p.sphere_radius p.AVERAGE_SPHERES_PER_SD_H_DIR p.LENGTH_UNIT
      hH hr hdH hLU

/-- Witness for C2: coverage at a concrete input. -/
theorem partition_BD_coverage_witness :
    2 ≤ (partition_BD ⟨10, 10, 10, 1, 1, 1, 1, 1⟩).nSDs_L_SU := by
  exact (partition_BD_coverage ⟨10, 10, 10, 1, 1, 1, 1, 1⟩
    (by norm_num) (by norm_num) (by norm_num) (by norm_num)
    (by norm_num) (by norm_num) (by norm_num) (by norm_num)).1.2.1

/-! ## Unit converter (`switch_to_SimUnits`, ChGranular.cpp lines 251-269)

Modelled over ℝ because the source uses `sqrt` and `M_PI`. -/

/-- Inputs read by `switch_to_SimUnits`. -/
structure SimParams where
  sphere_radius : ℝ
  sphere_density : ℝ
  modulusYoung_SPH2SPH : ℝ
  modulusYoung_SPH2WALL : ℝ
  PSI_T : ℝ
  PSI_h : ℝ
  PSI_L : ℝ
  X_accGrav : ℝ
  Y_accGrav : ℝ
  Z_accGrav : ℝ

/-- Fields written by `switch_to_SimUnits`. -/
structure SimUnits where
  MASS_UNIT : ℝ
  K_stiffness : ℝ
  TIME_UNIT : ℝ
  LENGTH_UNIT : ℝ
  monoDisperseSphRadius_SU : ℝ
  reciprocal_sphDiam_SU : ℝ
  gravAcc_X_factor_SU : ℝ
  gravAcc_Y_factor_SU : ℝ
  gravAcc_Z_factor_SU : ℝ

/-- The local `massSphere = 4./3.*M_PI*r*r*r*density` of `switch_to_SimUnits`. -/
noncomputable def massSphere (p : SimParams) : ℝ :=
  4 / 3 * Real.pi * p.sphere_radius * p.sphere_radius * p.sphere_radius * p.sphere_density

/-- The ternary `modulusYoung_SPH2SPH > modulusYoung_SPH2WALL ? SPH2SPH : SPH2WALL`. -/
noncomputable def K_stiffness_src (p : SimParams) : ℝ :=
  if p.modulusYoung_SPH2SPH > p.modulusYoung_SPH2WALL
    then p.modulusYoung_SPH2SPH else p.modulusYoung_SPH2WALL

/-- The local `magGravAcc = sqrt(X*X + Y*Y + Z*Z)` of `switch_to_SimUnits`. -/
noncomputable def magGravAcc (p : SimParams) : ℝ :=
  Real.sqrt (p.X_accGrav * p.X_accGrav + p.Y_accGrav * p.Y_accGrav + p.Z_accGrav * p.Z_accGrav)

/-- `switch_to_SimUnits` (ChGranular.cpp lines 251-269).  Note the source has
no guard against `magGravAcc == 0`: every field is computed unconditionally. -/
noncomputable def switch_to_SimUnits (p : SimParams) : SimUnits :=
  { MASS_UNIT := massSphere p
    K_stiffness := K_stiffness_src p
    TIME_UNIT := Real.sqrt (massSphere p / (p.PSI_h * K_stiffness_src p)) / p.PSI_T
    LENGTH_UNIT := massSphere p * magGravAcc p / (p.PSI_L * K_stiffness_src p)
    monoDisperseSphRadius_SU :=
      p.sphere_radius / (massSphere p * magGravAcc p / (p.PSI_L * K_stiffness_src p))
    reciprocal_sphDiam_SU :=
      1 / (2 * (p.sphere_radius / (massSphere p * magGravAcc p / (p.PSI_L * K_stiffness_src p))))
    gravAcc_X_factor_SU :=
      p.PSI_L / (p.PSI_T * p.PSI_T * p.PSI_h) * p.X_accGrav / magGravAcc p
    gravAcc_Y_factor_SU :=
      p.PSI_L / (p.PSI_T * p.PSI_T * p.PSI_h) * p.Y_accGrav / magGravAcc p
    gravAcc_Z_factor_SU :=
      p.PSI_L / (p.PSI_T * p.PSI_T * p.PSI_h) * p.Z_accGrav / magGravAcc p }

/-- C3: `switch_to_SimUnits` computes `MASS_UNIT = (4/3)·π·r³·ρ`,
`K_stiffness = max` of the configured Young's moduli, `TIME_UNIT =
sqrt(massSphere/(ψ_h·K))/ψ_T`, `LENGTH_UNIT = massSphere·|g|/(ψ_L·K)`,
`monoDisperseSphRadius_SU = r/LENGTH_UNIT`, and each SU gravity component
`(ψ_L/(ψ_T²·ψ_h))·g_i/|g|`, where `|g| = sqrt(g_x² + g_y² + g_z²)`. -/
theorem switch_to_SimUnits_formulas (p : SimParams) :
    (switch_to_SimUnits p).MASS_UNIT =
      4 / 3 * Real.pi * p.sphere_radius ^ 3 * p.sphere_density ∧
    (switch_to_SimUnits p).K_stiffness = max p.modulusYoung_SPH2SPH p.modulusYoung_SPH2WALL ∧
    (switch_to_SimUnits p).TIME_UNIT =
      Real.sqrt ((switch_to_SimUnits p).MASS_UNIT /
        (p.PSI_h * (switch_to_SimUnits p).K_stiffness)) / p.PSI_T ∧
    (switch_to_SimUnits p).LENGTH_UNIT =
      (switch_to_SimUnits p).MASS_UNIT *
        Real.sqrt (p.X_accGrav ^ 2 + p.Y_accGrav ^ 2 + p.Z_accGrav ^ 2) /
        (p.PSI_L * (switch_to_SimUnits p).K_stiffness) ∧
    (switch_to_SimUnits p).monoDisperseSphRadius_SU =
      p.sphere_radius / (switch_to_SimUnits p).LENGTH_UNIT ∧
    (switch_to_SimUnits p).gravAcc_X_factor_SU =
      p.PSI_L / (p.PSI_T ^ 2 * p.PSI_h) * p.X_accGrav /
        Real.sqrt (p.X_accGrav ^ 2 + p.Y_accGrav ^ 2 + p.Z_accGrav ^ 2) ∧
    (switch_to_SimUnits p).gravAcc_Y_factor_SU =
      p.PSI_L / (p.PSI_T ^ 2 * p.PSI_h) * p.Y_accGrav /
        Real.sqrt (p.X_accGrav ^ 2 + p.Y_accGrav ^ 2 + p.Z_accGrav ^ 2) ∧
    (switch_to_SimUnits p).gravAcc_Z_factor_SU =
      p.PSI_L / (p.PSI_T ^ 2 * p.PSI_h) * p.Z_accGrav /
        Real.sqrt (p.X_accGrav ^ 2 + p.Y_accGrav ^ 2 + p.Z_accGrav ^ 2) := by
  have hsq : p.X_accGrav * p.X_accGrav + p.Y_accGrav * p.Y_accGrav + p.Z_accGrav * p.Z_accGrav =
      p.X_accGrav ^ 2 + p.Y_accGrav ^ 2 + p.Z_accGrav ^ 2 := by ring
  have hmag : magGravAcc p = Real.sqrt (p.X_accGrav ^ 2 + p.Y_accGrav ^ 2 + p.Z_accGrav ^ 2) := by
    rw [magGravAcc, hsq]
  have hpsiT : p.PSI_T * p.PSI_T = p.PSI_T ^ 2 := by ring
  refine ⟨?_, ?_, rfl, ?_, rfl, ?_, ?_, ?_⟩
  · show massSphere p = _
    rw [massSphere]; ring
  · show K_stiffness_src p = _
    rw [K_stiffness_src, max_comm]
    rcases lt_or_le p.modulusYoung_SPH2WALL p.modulusYoung_SPH2SPH with h | h
    · rw [if_pos h, max_eq_right (le_of_lt h)]
    · rw [if_neg (not_lt.mpr h), max_eq_left h]
  · show massSphere p * magGravAcc p / (p.PSI_L * K_stiffness_src p) = _
    rw [hmag]; rfl
  · show p.PSI_L / (p.PSI_T * p.PSI_T * p.PSI_h) * p.X_accGrav / magGravAcc p = _
    rw [hmag, hpsiT]
  · show p.PSI_L / (p.PSI_T * p.PSI_T * p.PSI_h) * p.Y_accGrav / magGravAcc p = _
    rw [hmag, hpsiT]
  · show p.PSI_L / (p.PSI_T * p.PSI_T * p.PSI_h) * p.Z_accGrav / magGravAcc p = _
    rw [hmag, hpsiT]

/-- A concrete configuration with zero-magnitude gravity: unit radius, density,
moduli and ψ-factors, gravity `(0,0,0)`. -/
def zeroGravParams : SimParams :=
  { sphere_radius := 1, sphere_density := 1,
    modulusYoung_SPH2SPH := 1, modulusYoung_SPH2WALL := 1,
    PSI_T := 1, PSI_h := 1, PSI_L := 1,
    X_accGrav := 0, Y_accGrav := 0, Z_accGrav := 0 }

/-- C4: `switch_to_SimUnits` has no `|g| == 0` guard.  At the concrete
zero-gravity configuration it computes straight through: `|g| = 0`,
`LENGTH_UNIT = 0`, and the SU radius `r / LENGTH_UNIT` is a division by
zero (NaN/inf in the C++ `double` arithmetic; Lean's total division gives 0).
No error path exists, contradicting the spec's required rejection. -/
theorem switch_to_SimUnits_no_zero_gravity_guard :
    magGravAcc zeroGravParams = 0 ∧
    (switch_to_SimUnits zeroGravParams).LENGTH_UNIT = 0 ∧
    (switch_to_SimUnits zeroGravParams).gravAcc_X_factor_SU =
      1 / (1 * 1 * 1) * 0 / magGravAcc zeroGravParams := by
  have h0 : magGravAcc zeroGravParams = 0 := by
    rw [magGravAcc]
    show Real.sqrt ((0:ℝ) * 0 + 0 * 0 + 0 * 0) = 0
    rw [show ((0:ℝ) * 0 + 0 * 0 + 0 * 0) = 0 by ring, Real.sqrt_zero]
  refine ⟨h0, ?_, rfl⟩
  show massSphere zeroGravParams * magGravAcc zeroGravParams /
      (zeroGravParams.PSI_L * K_stiffness_src zeroGravParams) = 0
  rw [h0, mul_zero, zero_div]

/-! ## Device-buffer cleanup (`cleanup_simulation`, ChGranular.cpp lines 25-63;
`cleanupTriMesh_DEVICE`, ChGranularTriMesh.cpp lines 212-230)

Device pointers are modelled as `Option ℕ` (null = `none`); the device heap is
the set of live allocation addresses plus a flag recording whether a
`cudaFree` of a dangling (non-null, not-live) pointer ever occurred.
`cudaFree(nullptr)` is a no-op per the CUDA contract. -/

/-- Device heap: live allocation addresses and a double-free error flag. -/
structure Heap where
  live : Finset ℕ
  err : Bool
  deriving DecidableEq

/-- `cudaFree(p)`: null is a no-op; freeing a live address removes it; freeing a
dangling non-null address raises the error flag. -/
def cudaFreeOp (h : Heap) (p : Option ℕ) : Heap :=
  match p with
  | none => h
  | some a => if a ∈ h.live then { h with live := h.live.erase a } else { h with err := true }

/-- The `if (p != nullptr) { cudaFree(p); p = nullptr; }` pattern used throughout
`cleanup_simulation`. -/
def freeAndNull (h : Heap) (p : Option ℕ) : Heap × Option ℕ :=
  match p with
  | none => (h, none)
  | some a => (cudaFreeOp h (some a), none)

/-- The eleven device pointers owned by the particle store, in allocation
order (`setup_simulation`, ChGranular.cpp lines 72-90): positions, velocities,
pending velocity updates, and the two per-SD bookkeeping arrays. -/
structure GranState where
  p_d_CM_X : Option ℕ
  p_d_CM_Y : Option ℕ
  p_d_CM_Z : Option ℕ
  p_d_CM_XDOT : Option ℕ
  p_d_CM_YDOT : Option ℕ
  p_d_CM_ZDOT : Option ℕ
  p_d_CM_XDOT_update : Option ℕ
  p_d_CM_YDOT_update : Option ℕ
  p_d_CM_ZDOT_update : Option ℕ
  p_device_SD_NumOf_DEs_Touching : Option ℕ
  p_device_DEs_in_SD_composite : Option ℕ
  deriving DecidableEq

/-- A particle-store state whose eight `cleanup_simulation`-freed pointers are
null; the three pending-velocity-update pointers are arbitrary, since the
source never frees or nulls them. -/
def GranState.nullFreed (u1 u2 u3 : Option ℕ) : GranState :=
  ⟨none, none, none, none, none, none, u1, u2, u3, none, none⟩

/-- `cleanup_simulation` (ChGranular.cpp lines 25-63): null-checks, frees, and
nulls the three position, three velocity, and two SD-bookkeeping pointers, in
that order.  The three pending-velocity-update buffers allocated in
`setup_simulation` (lines 82-84) are freed nowhere in the source, so they are
left untouched here. -/
def cleanup_simulation (hs : Heap × GranState) : Heap × GranState :=
  let s := hs.2
  let r1 := freeAndNull hs.1 s.p_d_CM_X
  let r2 := freeAndNull r1.1 s.p_d_CM_Y
  let r3 := freeAndNull r2.1 s.p_d_CM_Z
  let r4 := freeAndNull r3.1 s.p_d_CM_XDOT
  let r5 := freeAndNull r4.1 s.p_d_CM_YDOT
  let r6 := freeAndNull r5.1 s.p_d_CM_ZDOT
  let r7 := freeAndNull r6.1 s.p_device_SD_NumOf_DEs_Touching
  let r8 := freeAndNull r7.1 s.p_device_DEs_in_SD_composite
  (r8.1, ⟨r1.2, r2.2, r3.2, r4.2, r5.2, r6.2,
    s.p_d_CM_XDOT_update, s.p_d_CM_YDOT_update, s.p_d_CM_ZDOT_update, r7.2, r8.2⟩)

/-- The device pointers freed by `cleanupTriMesh_DEVICE`: the ten mesh-soup
member buffers, the two family-frame arrays, and the two containers
(`meshSoup_DEVICE` itself and `tri_params`). -/
structure TriMeshState where
  triangleFamily_ID : Option ℕ
  familyMass_SU : Option ℕ
  inflated : Option ℕ
  inflation_radii : Option ℕ
  node1 : Option ℕ
  node2 : Option ℕ
  node3 : Option ℕ
  vel : Option ℕ
  omega : Option ℕ
  generalizedForcesPerFamily : Option ℕ
  fam_frame_broad : Option ℕ
  fam_frame_narrow : Option ℕ
  meshSoup_DEVICE_ptr : Option ℕ
  tri_params_ptr : Option ℕ
  deriving DecidableEq

/-- `cleanupTriMesh_DEVICE` (ChGranularTriMesh.cpp lines 212-230): fourteen
unconditional `cudaFree` calls; no null checks, and no pointer is set to null. -/
def cleanupTriMesh_DEVICE (hs : Heap × TriMeshState) : Heap × TriMeshState :=
  let s := hs.2
  let h1 := cudaFreeOp hs.1 s.triangleFamily_ID
  let h2 := cudaFreeOp h1 s.familyMass_SU
  let h3 := cudaFreeOp h2 s.inflated
  let h4 := cudaFreeOp h3 s.inflation_radii
  let h5 := cudaFreeOp h4 s.node1
  let h6 := cudaFreeOp h5 s.node2
  let h7 := cudaFreeOp h6 s.node3
  let h8 := cudaFreeOp h7 s.vel
  let h9 := cudaFreeOp h8 s.omega
  let h10 := cudaFreeOp h9 s.generalizedForcesPerFamily
  let h11 := cudaFreeOp h10 s.fam_frame_broad
  let h12 := cudaFreeOp h11 s.fam_frame_narrow
  let h13 := cudaFreeOp h12 s.meshSoup_DEVICE_ptr
  let h14 := cudaFreeOp h13 s.tri_params_ptr
  (h14, s)

/-- Addresses held by the eight pointers that `cleanup_simulation` frees (the
pending-update pointers are not among them). -/
def GranState.freedAddrs (s : GranState) : Finset ℕ :=
  (s.p_d_CM_X.toFinset ∪ s.p_d_CM_Y.toFinset ∪ s.p_d_CM_Z.toFinset ∪
    s.p_d_CM_XDOT.toFinset ∪ s.p_d_CM_YDOT.toFinset ∪ s.p_d_CM_ZDOT.toFinset ∪
    s.p_device_SD_NumOf_DEs_Touching.toFinset ∪ s.p_device_DEs_in_SD_composite.toFinset)

/-- Helper: freeing removes exactly the freed address from the live set. -/
lemma cudaFreeOp_live (h : Heap) (p : Option ℕ) :
    (cudaFreeOp h p).live = h.live \ p.toFinset := by
  match p with
  | none => simp [cudaFreeOp]
  | some a =>
    simp only [cudaFreeOp, Option.toFinset_some]
    split
    · rw [Finset.erase_eq]
    · rw [Finset.sdiff_singleton_eq_erase, Finset.erase_eq_of_not_mem (by assumption)]

/-- Helper: `freeAndNull` always returns a null pointer. -/
lemma freeAndNull_snd (h : Heap) (p : Option ℕ) : (freeAndNull h p).2 = none := by
  cases p <;> rfl

/-- Helper: `freeAndNull` removes exactly the freed address from the live set. -/
lemma freeAndNull_live (h : Heap) (p : Option ℕ) :
    (freeAndNull h p).1.live = h.live \ p.toFinset := by
  cases p with
  | none => simp [freeAndNull]
  | some a => exact cudaFreeOp_live h (some a)

/-- Helper: one `cleanup_simulation` call nulls the eight freed pointers and
leaves the three pending-update pointers exactly as they were. -/
lemma cleanup_simulation_state (hs : Heap × GranState) :
    (cleanup_simulation hs).2 =
      GranState.nullFreed hs.2.p_d_CM_XDOT_update hs.2.p_d_CM_YDOT_update
        hs.2.p_d_CM_ZDOT_update := by
  simp only [cleanup_simulation, GranState.nullFreed, freeAndNull_snd]

/-- Helper: `cleanup_simulation` removes exactly the addresses of the eight
pointers it frees from the heap. -/
lemma cleanup_simulation_live (h : Heap) (s : GranState) :
    (cleanup_simulation (h, s)).1.live = h.live \ s.freedAddrs := by
  simp only [cleanup_simulation, GranState.freedAddrs, freeAndNull_live]
  ext a
  simp only [Finset.mem_sdiff, Finset.mem_union]
  tauto

/-- A fully-allocated particle store: all eleven pointers hold distinct live
addresses. -/
def granFullState : GranState :=
  ⟨some 1, some 2, some 3, some 4, some 5, some 6, some 7, some 8, some 9,
    some 10, some 11⟩

/-- The heap in which the eleven particle-store allocations are live. -/
def granFullHeap : Heap :=
  ⟨{1, 2, 3, 4, 5, 6, 7, 8, 9, 10, 11}, false⟩

/-- A fully-allocated mesh soup: all fourteen pointers hold distinct live
addresses. -/
def triMeshFullState : TriMeshState :=
  ⟨some 1, some 2, some 3, some 4, some 5, some 6, some 7, some 8, some 9, some 10,
    some 11, some 12, some 13, some 14⟩

/-- The heap in which all fourteen mesh-soup allocations are live. -/
def triMeshFullHeap : Heap :=
  ⟨{1, 2, 3, 4, 5, 6, 7, 8, 9, 10, 11, 12, 13, 14}, false⟩

/-- C5 is false for both owners on concrete fully-allocated states.
ParticleStore: `cleanup_simulation` leaves `p_d_CM_XDOT_update` non-null and
its allocation live (the pending-update buffers are never freed — a leak), so
one call does not free every non-null buffer.  MeshSoup:
`cleanupTriMesh_DEVICE` leaves `node1` non-null (nothing is set to null), and
a second consecutive call frees dangling pointers, raising the error flag. -/
theorem device_release_counterexample :
    (cleanup_simulation (granFullHeap, granFullState)).2.p_d_CM_XDOT_update = some 7 ∧
    7 ∈ (cleanup_simulation (granFullHeap, granFullState)).1.live ∧
    (cleanupTriMesh_DEVICE (triMeshFullHeap, triMeshFullState)).2.node1 = some 5 ∧
    (cleanupTriMesh_DEVICE (triMeshFullHeap, triMeshFullState)).1.err = false ∧
    (cleanupTriMesh_DEVICE
      (cleanupTriMesh_DEVICE (triMeshFullHeap, triMeshFullState))).1.err = true := by
  refine ⟨rfl, by decide, rfl, by decide, by decide⟩

/-- C5 amended: only the particle-store release is null-safe and idempotent,
and only for the eight pointers it touches — one `cleanup_simulation` call
frees those eight (their addresses leave the live set) and nulls them, leaves
the three pending-velocity-update pointers untouched (they are never freed:
a leak), a call on a state whose eight freed pointers are null is a no-op,
and a second consecutive call changes nothing (hence never errors) — while
`cleanupTriMesh_DEVICE` nulls nothing and double-frees on a second call (see
the counterexample). -/
theorem cleanup_simulation_release_behavior (h : Heap) (s : GranState)
    (u1 u2 u3 : Option ℕ) :
    (cleanup_simulation (h, s)).2 =
      GranState.nullFreed s.p_d_CM_XDOT_update s.p_d_CM_YDOT_update s.p_d_CM_ZDOT_update ∧
    (cleanup_simulation (h, s)).1.live = h.live \ s.freedAddrs ∧
    cleanup_simulation (cleanup_simulation (h, s)) = cleanup_simulation (h, s) ∧
    cleanup_simulation (h, GranState.nullFreed u1 u2 u3) =
      (h, GranState.nullFreed u1 u2 u3) := by
  refine ⟨cleanup_simulation_state (h, s), cleanup_simulation_live h s, ?_, rfl⟩
  have hnull : ∀ (h' : Heap) (v1 v2 v3 : Option ℕ),
      cleanup_simulation (h', GranState.nullFreed v1 v2 v3) =
        (h', GranState.nullFreed v1 v2 v3) :=
    fun h' v1 v2 v3 => rfl
  have h2 : cleanup_simulation (h, s) = ((cleanup_simulation (h, s)).1,
      GranState.nullFreed s.p_d_CM_XDOT_update s.p_d_CM_YDOT_update s.p_d_CM_ZDOT_update) :=
    Prod.ext_iff.mpr ⟨rfl, cleanup_simulation_state (h, s)⟩
  rw [h2]
  exact hnull _ _ _ _


/-! ## Mesh soup loading and winding correction
(`load_meshes`, ChGranularTriMesh.cpp lines 101-139;
`setupTriMesh_DEVICE`, lines 232-322) -/

/-- A 3-vector over exact rationals (models `ChVector` / `float3`). -/
structure Vec3 where
  x : ℚ
  y : ℚ
  z : ℚ
  deriving DecidableEq, Repr

/-- Componentwise subtraction. -/
def Vec3.sub (a b : Vec3) : Vec3 := ⟨a.x - b.x, a.y - b.y, a.z - b.z⟩

/-- Cross product (`ChVector::Cross`). -/
def Vec3.cross (a b : Vec3) : Vec3 :=
  ⟨a.y * b.z - a.z * b.y, a.z * b.x - a.x * b.z, a.x * b.y - a.y * b.x⟩

/-- Dot product (`ChVector::Dot`). -/
def Vec3.dot (a b : Vec3) : ℚ := a.x * b.x + a.y * b.y + a.z * b.z

/-- The per-triangle winding check of `setupTriMesh_DEVICE` (lines 271-280):
`AB = p2 - p1`, `AC = p3 - p1`, `cross = AB × AC`; if `cross · normal < 0` the
stored node2/node3 are swapped, else they are kept. Returns (node2, node3). -/
def windingFixNodes (p1 p2 p3 normal : Vec3) : Vec3 × Vec3 :=
  let AB := Vec3.sub p2 p1
  let AC := Vec3.sub p3 p1
  let cr := Vec3.cross AB AC
  if Vec3.dot cr normal < 0 then (p3, p2) else (p2, p3)

/-- C6: for every imported triangle, if `cross(p2−p1, p3−p1) · storedNormal` is
negative the loader swaps node2 and node3; if the cross-product normal agrees
with the stored normal (non-negative dot product) the node order is unchanged. -/
theorem winding_correction (p1 p2 p3 n : Vec3) :
    (Vec3.dot (Vec3.cross (Vec3.sub p2 p1) (Vec3.sub p3 p1)) n < 0 →
      windingFixNodes p1 p2 p3 n = (p3, p2)) ∧
    (0 ≤ Vec3.dot (Vec3.cross (Vec3.sub p2 p1) (Vec3.sub p3 p1)) n →
      windingFixNodes p1 p2 p3 n = (p2, p3)) := by
  constructor
  · intro h
    exact if_pos h
  · intro h
    exact if_neg (not_lt.mpr h)

/-- Witness for C6: a concrete triangle in the xy-plane.  With stored normal
`(0,0,-1)` the right-hand-rule normal `(0,0,1)` disagrees and the nodes swap;
with stored normal `(0,0,1)` they agree and the order is unchanged. -/
theorem winding_correction_witness :
    windingFixNodes ⟨0, 0, 0⟩ ⟨1, 0, 0⟩ ⟨0, 1, 0⟩ ⟨0, 0, -1⟩ = (⟨0, 1, 0⟩, ⟨1, 0, 0⟩) ∧
    windingFixNodes ⟨0, 0, 0⟩ ⟨1, 0, 0⟩ ⟨0, 1, 0⟩ ⟨0, 0, 1⟩ = (⟨1, 0, 0⟩, ⟨0, 1, 0⟩) :=
  ⟨(winding_correction ⟨0, 0, 0⟩ ⟨1, 0, 0⟩ ⟨0, 1, 0⟩ ⟨0, 0, -1⟩).1
      (by norm_num [Vec3.sub, Vec3.cross, Vec3.dot]),
   (winding_correction ⟨0, 0, 0⟩ ⟨1, 0, 0⟩ ⟨0, 1, 0⟩ ⟨0, 0, 1⟩).2
      (by norm_num [Vec3.sub, Vec3.cross, Vec3.dot])⟩

/-- An imported triangle: three vertices and the mesh file's stored vertex
normal (the source reads `m_normals[m_face_n_indices.at(i).x()]`). -/
structure TriangleIn where
  p1 : Vec3
  p2 : Vec3
  p3 : Vec3
  normal : Vec3
  deriving DecidableEq

/-- One imported obj file after `LoadWavefrontMesh` (external loader): its list
of triangles with their stored normals. -/
structure MeshIn where
  triangles : List TriangleIn
  deriving DecidableEq

/-- The external `ChTriangleMeshConnected::Transform` with a diagonal scale
matrix: componentwise per-axis scaling of each vertex (and stored normal). -/
def scaleVec (s v : Vec3) : Vec3 := ⟨s.x * v.x, s.y * v.y, s.z * v.z⟩

/-- Per-axis scaling of a whole mesh (`mesh.Transform({0,0,0}, diag(scaling))`). -/
def scaleMesh (s : Vec3) (m : MeshIn) : MeshIn :=
  ⟨m.triangles.map fun t => ⟨scaleVec s t.p1, scaleVec s t.p2, scaleVec s t.p3,
    scaleVec s t.normal⟩⟩

/-- One triangle of the device soup: winding-corrected nodes and family id. -/
structure SoupTriangle where
  node1 : Vec3
  node2 : Vec3
  node3 : Vec3
  familyID : ℕ
  deriving DecidableEq

/-- The soup triangle written for triangle `t` of family `family`
(`setupTriMesh_DEVICE` inner loop, lines 258-281). -/
def soupTriangleOf (family : ℕ) (t : TriangleIn) : SoupTriangle :=
  let nodes := windingFixNodes t.p1 t.p2 t.p3 t.normal
  ⟨t.p1, nodes.1, nodes.2, family⟩

/-- The device triangle soup written by `setupTriMesh_DEVICE`. -/
structure TriangleSoup where
  nTrianglesInSoup : ℕ
  triangles : List SoupTriangle
  numTriangleFamilies : ℕ
  familyMass_SU : List ℚ
  inflated : List Bool
  inflation_radii : List ℚ
  deriving DecidableEq

/-- The `for (auto mesh : all_meshes)` loop of `setupTriMesh_DEVICE`
(lines 256-285): writes each mesh's triangles in order, stamping the running
`family` counter on each, and increments the counter per mesh. -/
def soupTriangles : ℕ → List MeshIn → List SoupTriangle
  | _, [] => []
  | family, m :: rest => m.triangles.map (soupTriangleOf family) ++ soupTriangles (family + 1) rest

/-- `setupTriMesh_DEVICE` (lines 232-322): writes each mesh's triangles in file
order with one family id per file, counts families, and (only when the soup is
non-empty, matching the `nTrianglesInSoup != 0` guard) copies the per-family
mass/inflation data for the `family` families written. -/
def setupTriMesh_DEVICE (all_meshes : List MeshIn) (nTriangles : ℕ)
    (masses : List ℚ) (inflated : List Bool) (inflation_radii : List ℚ) : TriangleSoup :=
  let family := all_meshes.length
  { nTrianglesInSoup := nTriangles
    triangles := soupTriangles 0 all_meshes
    numTriangleFamilies := family
    familyMass_SU := if nTriangles ≠ 0 then masses.take family else []
    inflated := if nTriangles ≠ 0 then inflated.take family else []
    inflation_radii := if nTriangles ≠ 0 then inflation_radii.take family else [] }

/-- Result of `load_meshes`: the zero-mesh warning flag and the soup. -/
structure LoadResult where
  warning_no_meshes : Bool
  soup : TriangleSoup
  deriving DecidableEq

/-- `load_meshes` (lines 101-139): errors unless the five input vectors have
equal length; warns when no meshes are supplied; imports and scales each mesh,
sums the triangle count, and builds the device soup. -/
def load_meshes (objfiles : List MeshIn) (scalings : List Vec3) (masses : List ℚ)
    (inflated : List Bool) (inflation_radii : List ℚ) : Except String LoadResult :=
  if objfiles.length ≠ scalings.length ∨ objfiles.length ≠ masses.length ∨
      objfiles.length ≠ inflated.length ∨ objfiles.length ≠ inflation_radii.length then
    .error "Vectors of obj files, scalings, and masses must have same size"
  else
    let all_meshes := (objfiles.zip scalings).map fun ms => scaleMesh ms.2 ms.1
    let nTriangles := (all_meshes.map fun m => m.triangles.length).sum
    .ok { warning_no_meshes := objfiles.length = 0
          soup := setupTriMesh_DEVICE all_meshes nTriangles masses inflated inflation_radii }

/-- Family-id layout in the spec's words, with a starting family id: one family
id per input file, in file order, repeated once per triangle of that file. -/
def familyIDsSpecFrom : ℕ → List MeshIn → List ℕ
  | _, [] => []
  | family, m :: rest =>
    List.replicate m.triangles.length family ++ familyIDsSpecFrom (family + 1) rest

/-- Family-id layout in the spec's words: one family id per input file, in file
order, repeated once per triangle of that file, starting from family 0. -/
def familyIDsSpec (meshes : List MeshIn) : List ℕ := familyIDsSpecFrom 0 meshes

/-- Helper: scaling preserves the triangle count of a mesh. -/
lemma scaleMesh_length (s : Vec3) (m : MeshIn) :
    (scaleMesh s m).triangles.length = m.triangles.length := by
  simp [scaleMesh]

/-- Helper: the family ids written by the setup loop follow the per-file layout. -/
lemma soupTriangles_familyIDs (meshes : List MeshIn) :
    ∀ k : ℕ, (soupTriangles k meshes).map (fun t => t.familyID) = familyIDsSpecFrom k meshes := by
  induction meshes with
  | nil => intro k; rfl
  | cons m rest ih =>
    intro k
    simp only [soupTriangles, familyIDsSpecFrom, List.map_append, List.map_map, ih]
    congr 1
    have hc : (fun t => SoupTriangle.familyID t) ∘ soupTriangleOf k = fun _ => k := rfl
    rw [hc, List.map_const']

/-- Helper: the per-file family layout is unchanged by zipping with equal-length
scalings and scaling each mesh. -/
lemma familyIDsSpecFrom_zip_scale (fs : List MeshIn) :
    ∀ (k : ℕ) (ss : List Vec3), fs.length = ss.length →
    familyIDsSpecFrom k ((fs.zip ss).map fun ms => scaleMesh ms.2 ms.1)
      = familyIDsSpecFrom k fs := by
  induction fs with
  | nil => intro k ss _; rfl
  | cons f fs ih =>
    intro k ss h
    cases ss with
    | nil => simp at h
    | cons s ss =>
      rw [List.zip_cons_cons, List.map_cons]
      simp only [familyIDsSpecFrom]
      rw [scaleMesh_length, ih (k + 1) ss (by simpa using h)]

/-- C7: `load_meshes` fails with the configuration error whenever the five
input vectors differ in length; with zero meshes it returns successfully with
(only) the warning flag raised and an empty soup (zero triangles, zero
families); and with matching lengths it succeeds, assigning one family id per
input file in file order, so the number of families equals the number of
loaded mesh files. -/
theorem load_meshes_spec (objfiles : List MeshIn) (scalings : List Vec3)
    (masses : List ℚ) (inflated : List Bool) (inflation_radii : List ℚ) :
    ((objfiles.length ≠ scalings.length ∨ objfiles.length ≠ masses.length ∨
        objfiles.length ≠ inflated.length ∨ objfiles.length ≠ inflation_radii.length) →
      load_meshes objfiles scalings masses inflated inflation_radii =
        .error "Vectors of obj files, scalings, and masses must have same size") ∧
    (load_meshes [] [] [] [] [] =
      .ok { warning_no_meshes := true
            soup := { nTrianglesInSoup := 0, triangles := [], numTriangleFamilies := 0,
                      familyMass_SU := [], inflated := [], inflation_radii := [] } }) ∧
    ((objfiles.length = scalings.length ∧ objfiles.length = masses.length ∧
        objfiles.length = inflated.length ∧ objfiles.length = inflation_radii.length) →
      ∃ r : LoadResult,
        load_meshes objfiles scalings masses inflated inflation_radii = .ok r ∧
        r.soup.numTriangleFamilies = objfiles.length ∧
        r.soup.triangles.map (fun t => t.familyID) = familyIDsSpec objfiles) := by
  refine ⟨?_, rfl, ?_⟩
  · intro h
    simp only [load_meshes]
    rw [if_pos h]
  · rintro ⟨h1, h2, h3, h4⟩
    have hcond : ¬(objfiles.length ≠ scalings.length ∨ objfiles.length ≠ masses.length ∨
        objfiles.length ≠ inflated.length ∨ objfiles.length ≠ inflation_radii.length) := by
      push_neg
      exact ⟨h1, h2, h3, h4⟩
    refine ⟨{ warning_no_meshes := decide (objfiles.length = 0)
              soup := setupTriMesh_DEVICE
                ((objfiles.zip scalings).map fun ms => scaleMesh ms.2 ms.1)
                ((((objfiles.zip scalings).map fun ms => scaleMesh ms.2 ms.1).map
                    fun m => m.triangles.length).sum)
                masses inflated inflation_radii }, ?_, ?_, ?_⟩
    · simp only [load_meshes]
      rw [if_neg hcond]
    · simp only [setupTriMesh_DEVICE, List.length_map, List.length_zip, ← h1, min_self]
    · simp only [setupTriMesh_DEVICE]
      rw [soupTriangles_familyIDs ((objfiles.zip scalings).map fun ms => scaleMesh ms.2 ms.1) 0,
        familyIDsSpec, familyIDsSpecFrom_zip_scale objfiles 0 scalings h1]

/-- A concrete one-triangle mesh used to instantiate `load_meshes_spec`. -/
def demoMesh : MeshIn := ⟨[⟨⟨0, 0, 0⟩, ⟨1, 0, 0⟩, ⟨0, 1, 0⟩, ⟨0, 0, 1⟩⟩]⟩

/-- Witness for C7: a length mismatch errors, and a single one-triangle mesh
loads into a soup with exactly one family, id 0. -/
theorem load_meshes_spec_witness :
    (load_meshes [] [⟨1, 1, 1⟩] [] [] [] =
      .error "Vectors of obj files, scalings, and masses must have same size") ∧
    (∃ r : LoadResult, load_meshes [demoMesh] [⟨1, 1, 1⟩] [5] [false] [0] = .ok r ∧
      r.soup.numTriangleFamilies = 1 ∧
      r.soup.triangles.map (fun t => t.familyID) = familyIDsSpec [demoMesh]) :=
  ⟨(load_meshes_spec [] [⟨1, 1, 1⟩] [] [] []).1 (by simp),
   by
    have h := (load_meshes_spec [demoMesh] [⟨1, 1, 1⟩] [5] [false] [0]).2.2 (by simp)
    simpa using h⟩


/-! ## Generalized-force collection
(`collectGeneralizedForcesOnMeshSoup`, ChGranularTriMesh.cpp lines 324-337) -/

/-- The state read by `collectGeneralizedForcesOnMeshSoup`: the family count,
the device generalized-force accumulator (index-addressed, 6 entries per
family), and the SU→UU force/torque scale factors. -/
structure ForceCollectState where
  numTriangleFamilies : ℕ
  generalizedForcesPerFamily : ℕ → ℚ
  FORCE_SU2UU : ℚ
  TORQUE_SU2UU : ℚ

/-- One iteration of the collection loop at base index `i`: writes
`out[i+0..i+2] = acc[i+0..i+2] * FORCE_SU2UU` and
`out[i+3..i+5] = acc[i+3..i+5] * TORQUE_SU2UU`, leaving other entries. -/
def writeFamForces (st : ForceCollectState) (out : ℕ → ℚ) (i : ℕ) : ℕ → ℚ :=
  fun j =>
    if j = i + 0 then st.generalizedForcesPerFamily (i + 0) * st.FORCE_SU2UU
    else if j = i + 1 then st.generalizedForcesPerFamily (i + 1) * st.FORCE_SU2UU
    else if j = i + 2 then st.generalizedForcesPerFamily (i + 2) * st.FORCE_SU2UU
    else if j = i + 3 then st.generalizedForcesPerFamily (i + 3) * st.TORQUE_SU2UU
    else if j = i + 4 then st.generalizedForcesPerFamily (i + 4) * st.TORQUE_SU2UU
    else if j = i + 5 then st.generalizedForcesPerFamily (i + 5) * st.TORQUE_SU2UU
    else out j

/-- `collectGeneralizedForcesOnMeshSoup` (lines 324-337): loops `i = 0, 6, 12,
… < 6·numTriangleFamilies` writing the converted accumulator entries into the
caller's array; the soup state itself is only read, so it is returned
unchanged alongside the written array. -/
def collectGeneralizedForcesOnMeshSoup (st : ForceCollectState) (out : ℕ → ℚ) :
    ForceCollectState × (ℕ → ℚ) :=
  (st, (List.range st.numTriangleFamilies).foldl (fun o f => writeFamForces st o (6 * f)) out)

/-- Helper: `writeFamForces` does not touch entries below its base index. -/
lemma writeFamForces_lt (st : ForceCollectState) (out : ℕ → ℚ) (i j : ℕ) (h : j < i) :
    writeFamForces st out i j = out j := by
  simp only [writeFamForces]
  rw [if_neg (by omega), if_neg (by omega), if_neg (by omega), if_neg (by omega),
    if_neg (by omega), if_neg (by omega)]

/-- Helper: `writeFamForces` does not touch entries at or above base + 6. -/
lemma writeFamForces_ge (st : ForceCollectState) (out : ℕ → ℚ) (i j : ℕ) (h : i + 6 ≤ j) :
    writeFamForces st out i j = out j := by
  simp only [writeFamForces]
  rw [if_neg (by omega), if_neg (by omega), if_neg (by omega), if_neg (by omega),
    if_neg (by omega), if_neg (by omega)]

/-- Helper: the value `writeFamForces` writes at offset `k < 6` of its base. -/
lemma writeFamForces_at (st : ForceCollectState) (out : ℕ → ℚ) (i k : ℕ) (h : k < 6) :
    writeFamForces st out i (i + k) =
      st.generalizedForcesPerFamily (i + k) *
        (if k < 3 then st.FORCE_SU2UU else st.TORQUE_SU2UU) := by
  interval_cases k <;>
    simp only [writeFamForces] <;>
    norm_num

/-- Helper: after folding the collection loop over `range n`, entry `6·f + k`
(`f < n`, `k < 6`) holds the converted accumulator entry. -/
lemma collect_loop_at (st : ForceCollectState) :
    ∀ (n : ℕ) (out : ℕ → ℚ) (f k : ℕ), f < n → k < 6 →
    ((List.range n).foldl (fun o g => writeFamForces st o (6 * g)) out) (6 * f + k) =
      st.generalizedForcesPerFamily (6 * f + k) *
        (if k < 3 then st.FORCE_SU2UU else st.TORQUE_SU2UU) := by
  intro n
  induction n with
  | zero => intro out f k hf _; omega
  | succ n ih =>
    intro out f k hf hk
    rw [List.range_succ, List.foldl_append, List.foldl_cons, List.foldl_nil]
    rcases Nat.lt_or_ge f n with hfn | hfn
    · have hj : 6 * f + k < 6 * n := by omega
      rw [writeFamForces_lt _ _ _ _ hj]
      exact ih out f k hfn hk
    · have hf_eq : f = n := by omega
      subst hf_eq
      exact writeFamForces_at st _ (6 * f) k hk

/-- Helper: entries at or above `6·n` are untouched by the collection loop. -/
lemma collect_loop_frame (st : ForceCollectState) :
    ∀ (n : ℕ) (out : ℕ → ℚ) (j : ℕ), 6 * n ≤ j →
    ((List.range n).foldl (fun o g => writeFamForces st o (6 * g)) out) j = out j := by
  intro n
  induction n with
  | zero => intro out j _; rfl
  | succ n ih =>
    intro out j hj
    rw [List.range_succ, List.foldl_append, List.foldl_cons, List.foldl_nil]
    rw [writeFamForces_ge _ _ _ _ (by omega)]
    exact ih out j (by omega)

/-- C8: for every family `f < numTriangleFamilies`,
`collectGeneralizedForcesOnMeshSoup` writes output entries `6f..6f+2` equal to
accumulator entries `6f..6f+2` times `FORCE_SU2UU`, and entries `6f+3..6f+5`
equal to accumulator entries `6f+3..6f+5` times `TORQUE_SU2UU`. -/
theorem collectGeneralizedForces_converts (st : ForceCollectState) (out : ℕ → ℚ)
    (f : ℕ) (hf : f < st.numTriangleFamilies) :
    (∀ k, k < 3 →
      (collectGeneralizedForcesOnMeshSoup st out).2 (6 * f + k) =
        st.generalizedForcesPerFamily (6 * f + k) * st.FORCE_SU2UU) ∧
    (∀ k, 3 ≤ k → k < 6 →
      (collectGeneralizedForcesOnMeshSoup st out).2 (6 * f + k) =
        st.generalizedForcesPerFamily (6 * f + k) * st.TORQUE_SU2UU) := by
  constructor
  · intro k hk
    have h := collect_loop_at st st.numTriangleFamilies out f k hf (by omega)
    rwa [if_pos hk] at h
  · intro k hk3 hk6
    have h := collect_loop_at st st.numTriangleFamilies out f k hf hk6
    rwa [if_neg (by omega)] at h

/-- Witness for C8: a two-family soup with accumulator `acc j = j`, force
scale 2, torque scale 3, evaluated at family 1. -/
theorem collectGeneralizedForces_converts_witness :
    (collectGeneralizedForcesOnMeshSoup ⟨2, fun j => (j : ℚ), 2, 3⟩ (fun _ => 0)).2 (6 * 1 + 2) =
      (6 * 1 + 2 : ℕ) * 2 ∧
    (collectGeneralizedForcesOnMeshSoup ⟨2, fun j => (j : ℚ), 2, 3⟩ (fun _ => 0)).2 (6 * 1 + 4) =
      (6 * 1 + 4 : ℕ) * 3 :=
  ⟨(collectGeneralizedForces_converts ⟨2, fun j => (j : ℚ), 2, 3⟩ (fun _ => 0) 1
      (by norm_num)).1 2 (by norm_num),
   (collectGeneralizedForces_converts ⟨2, fun j => (j : ℚ), 2, 3⟩ (fun _ => 0) 1
      (by norm_num)).2 4 (by norm_num) (by norm_num)⟩

/-- C10: `collectGeneralizedForcesOnMeshSoup` is read-only on the soup: the
returned state is the input state (the accumulator and every other field are
unchanged), and a second consecutive call writes an output array identical to
the first call's. -/
theorem collectGeneralizedForces_read_only (st : ForceCollectState) (out : ℕ → ℚ) :
    (collectGeneralizedForcesOnMeshSoup st out).1 = st ∧
    (collectGeneralizedForcesOnMeshSoup st
        ((collectGeneralizedForcesOnMeshSoup st out).2)).2 =
      (collectGeneralizedForcesOnMeshSoup st out).2 := by
  refine ⟨rfl, ?_⟩
  funext j
  simp only [collectGeneralizedForcesOnMeshSoup]
  rcases Nat.lt_or_ge j (6 * st.numTriangleFamilies) with hj | hj
  · have hdecomp : j = 6 * (j / 6) + j % 6 := by omega
    have hf : j / 6 < st.numTriangleFamilies := by omega
    have hk : j % 6 < 6 := by omega
    rw [hdecomp, collect_loop_at st st.numTriangleFamilies _ (j / 6) (j % 6) hf hk,
      collect_loop_at st st.numTriangleFamilies out (j / 6) (j % 6) hf hk]
  · rw [collect_loop_frame st st.numTriangleFamilies _ j hj]

/-! ## Quaternion → rotation matrix
(`generate_rot_matrix<T>`, ChGranularTriMesh.cpp lines 362-373;
`meshSoup_applyRigidBodyMotion`, lines 339-360)

The `float` and `double` template instantiations are transcribed separately,
both in exact arithmetic (the trailing `(T)` casts are precision-only). -/

/-- A row-major 3×3 matrix, mirroring the flat `T rot_mat[9]`. -/
structure RotMat where
  r0 : ℚ
  r1 : ℚ
  r2 : ℚ
  r3 : ℚ
  r4 : ℚ
  r5 : ℚ
  r6 : ℚ
  r7 : ℚ
  r8 : ℚ
  deriving DecidableEq

/-- A scalar-first quaternion `ep[0..3]`. -/
structure Quat where
  ep0 : ℚ
  ep1 : ℚ
  ep2 : ℚ
  ep3 : ℚ
  deriving DecidableEq

/-- `generate_rot_matrix<float>`: the template body with `(float)` casts,
in exact arithmetic. -/
def generate_rot_matrix_broad (ep : Quat) : RotMat :=
  ⟨2 * (ep.ep0 * ep.ep0 + ep.ep1 * ep.ep1 - 1/2),
   2 * (ep.ep1 * ep.ep2 - ep.ep0 * ep.ep3),
   2 * (ep.ep1 * ep.ep3 + ep.ep0 * ep.ep2),
   2 * (ep.ep1 * ep.ep2 + ep.ep0 * ep.ep3),
   2 * (ep.ep0 * ep.ep0 + ep.ep2 * ep.ep2 - 1/2),
   2 * (ep.ep2 * ep.ep3 - ep.ep0 * ep.ep1),
   2 * (ep.ep1 * ep.ep3 - ep.ep0 * ep.ep2),
   2 * (ep.ep2 * ep.ep3 + ep.ep0 * ep.ep1),
   2 * (ep.ep0 * ep.ep0 + ep.ep3 * ep.ep3 - 1/2)⟩

/-- `generate_rot_matrix<double>`: the template body with `(double)` casts,
in exact arithmetic. -/
def generate_rot_matrix_narrow (ep : Quat) : RotMat :=
  ⟨2 * (ep.ep0 * ep.ep0 + ep.ep1 * ep.ep1 - 1/2),
   2 * (ep.ep1 * ep.ep2 - ep.ep0 * ep.ep3),
   2 * (ep.ep1 * ep.ep3 + ep.ep0 * ep.ep2),
   2 * (ep.ep1 * ep.ep2 + ep.ep0 * ep.ep3),
   2 * (ep.ep0 * ep.ep0 + ep.ep2 * ep.ep2 - 1/2),
   2 * (ep.ep2 * ep.ep3 - ep.ep0 * ep.ep1),
   2 * (ep.ep1 * ep.ep3 - ep.ep0 * ep.ep2),
   2 * (ep.ep2 * ep.ep3 + ep.ep0 * ep.ep1),
   2 * (ep.ep0 * ep.ep0 + ep.ep3 * ep.ep3 - 1/2)⟩

/-- A family frame: translation and row-major rotation (`ChFamilyFrame<T>`). -/
structure FamilyFrame where
  pos0 : ℚ
  pos1 : ℚ
  pos2 : ℚ
  rot : RotMat

/-- The quaternion at offset `off` of the flat `position_orientation_data`. -/
def quatAt (d : ℕ → ℚ) (off : ℕ) : Quat := ⟨d off, d (off + 1), d (off + 2), d (off + 3)⟩

/-- The state read and written by `meshSoup_applyRigidBodyMotion`. -/
structure RigidMotionState where
  numTriangleFamilies : ℕ
  fam_frame_broad : ℕ → FamilyFrame
  fam_frame_narrow : ℕ → FamilyFrame
  vel : ℕ → Vec3
  omega : ℕ → Vec3
  TIME_SU2UU : ℚ
  LENGTH_SU2UU : ℚ

/-- `meshSoup_applyRigidBodyMotion` (lines 339-360): for each family below the
family count, sets the broadphase (float) and narrowphase (double) frames from
the same 7-stride position/quaternion row, and rescales the 6-stride
velocities by `C_V = TIME_SU2UU / LENGTH_SU2UU` and `C_O = TIME_SU2UU`. -/
def meshSoup_applyRigidBodyMotion (st : RigidMotionState)
    (position_orientation_data : ℕ → ℚ) (v : ℕ → ℚ) : RigidMotionState :=
  { st with
    fam_frame_broad := fun fam =>
      if fam < st.numTriangleFamilies then
        ⟨position_orientation_data (7 * fam), position_orientation_data (7 * fam + 1),
          position_orientation_data (7 * fam + 2),
          generate_rot_matrix_broad (quatAt position_orientation_data (7 * fam + 3))⟩
      else st.fam_frame_broad fam
    fam_frame_narrow := fun fam =>
      if fam < st.numTriangleFamilies then
        ⟨position_orientation_data (7 * fam), position_orientation_data (7 * fam + 1),
          position_orientation_data (7 * fam + 2),
          generate_rot_matrix_narrow (quatAt position_orientation_data (7 * fam + 3))⟩
      else st.fam_frame_narrow fam
    vel := fun fam =>
      if fam < st.numTriangleFamilies then
        ⟨st.TIME_SU2UU / st.LENGTH_SU2UU * v (6 * fam),
          st.TIME_SU2UU / st.LENGTH_SU2UU * v (6 * fam + 1),
          st.TIME_SU2UU / st.LENGTH_SU2UU * v (6 * fam + 2)⟩
      else st.vel fam
    omega := fun fam =>
      if fam < st.numTriangleFamilies then
        ⟨st.TIME_SU2UU * v (6 * fam + 3), st.TIME_SU2UU * v (6 * fam + 4),
          st.TIME_SU2UU * v (6 * fam + 5)⟩
      else st.omega fam }

/-- C9: the float and double instantiations of `generate_rot_matrix` evaluate
the same formula (equal in exact arithmetic), hence for every family below the
count `meshSoup_applyRigidBodyMotion` sets equal broad-phase and narrow-phase
rotation matrices; and for a unit quaternion the resulting row-major matrix is
orthonormal (its rows are an orthonormal triple, `M·Mᵀ = I`). -/
theorem generate_rot_matrix_consistent (ep : Quat) (st : RigidMotionState)
    (d v : ℕ → ℚ) (fam : ℕ) (hfam : fam < st.numTriangleFamilies)
    (hunit : ep.ep0 * ep.ep0 + ep.ep1 * ep.ep1 + ep.ep2 * ep.ep2 + ep.ep3 * ep.ep3 = 1) :
    generate_rot_matrix_broad ep = generate_rot_matrix_narrow ep ∧
    ((meshSoup_applyRigidBodyMotion st d v).fam_frame_broad fam).rot =
      ((meshSoup_applyRigidBodyMotion st d v).fam_frame_narrow fam).rot ∧
    (let M := generate_rot_matrix_broad ep;
      (M.r0 * M.r0 + M.r1 * M.r1 + M.r2 * M.r2 = 1) ∧
      (M.r3 * M.r3 + M.r4 * M.r4 + M.r5 * M.r5 = 1) ∧
      (M.r6 * M.r6 + M.r7 * M.r7 + M.r8 * M.r8 = 1) ∧
      (M.r0 * M.r3 + M.r1 * M.r4 + M.r2 * M.r5 = 0) ∧
      (M.r0 * M.r6 + M.r1 * M.r7 + M.r2 * M.r8 = 0) ∧
      (M.r3 * M.r6 + M.r4 * M.r7 + M.r5 * M.r8 = 0)) := by
  refine ⟨rfl, ?_, ?_⟩
  · simp only [meshSoup_applyRigidBodyMotion, if_pos hfam]
    rfl
  · obtain ⟨e0, e1, e2, e3⟩ := ep
    simp only [generate_rot_matrix_broad] at hunit ⊢
    refine ⟨?_, ?_, ?_, ?_, ?_, ?_⟩
    · linear_combination (4 * (e0 * e0 + e1 * e1)) * hunit
    · linear_combination (4 * (e0 * e0 + e2 * e2)) * hunit
    · linear_combination (4 * (e0 * e0 + e3 * e3)) * hunit
    · linear_combination (4 * e1 * e2) * hunit
    · linear_combination (4 * e1 * e3) * hunit
    · linear_combination (4 * e2 * e3) * hunit

/-- Witness for C9: the identity quaternion on a one-family state. -/
theorem generate_rot_matrix_consistent_witness :
    generate_rot_matrix_broad ⟨1, 0, 0, 0⟩ = generate_rot_matrix_narrow ⟨1, 0, 0, 0⟩ :=
  (generate_rot_matrix_consistent ⟨1, 0, 0, 0⟩
    ⟨1, fun _ => ⟨0, 0, 0, ⟨1, 0, 0, 0, 1, 0, 0, 0, 1⟩⟩, fun _ => ⟨0, 0, 0, ⟨1, 0, 0, 0, 1, 0, 0, 0, 1⟩⟩,
      fun _ => ⟨0, 0, 0⟩, fun _ => ⟨0, 0, 0⟩, 1, 1⟩
    (fun _ => 0) (fun _ => 0) 0 (by norm_num) (by norm_num)).1

end ChronoGranular
